import Mathlib

/-!
Shallow embedding of `source/YouTubeVideoDownloaderDriver.py`.

The driver is a single function `downloadYouTubeVideo(url, fileType, ret)`:

* it instantiates `YouTube(url.get(), use_oauth=True)` inside a
  `try/except/finally`; on any exception `yt` becomes `None` and the
  `finally` block shows a URL error dialog (empty-URL text when
  `url.get() == ""`, invalid-URL text otherwise), sets `ret` to `False`
  and returns `None`;
* it selects a stream inside a second `try/except`: `get_audio_only()`
  when `fileType == "mp3"`, else `get_highest_resolution()`; on any
  exception it shows the age-restriction dialog, sets `ret` to `False`
  and returns `None`;
* it downloads the stream to `os.path.join(Path.home(), "Downloads")`
  (this call is NOT guarded by any `try`);
* when `fileType == "mp3"` it computes `base, ext = os.path.splitext(outFile)`,
  `newFile = base + ".mp3"`, removes a pre-existing `newFile`, and renames
  `outFile` to `newFile` (also unguarded);
* finally it sets `ret` to `True`, shows the success dialog and returns
  the `ret` holder object.

The external pytube library and the filesystem are modelled as explicit
parameters: a `Behavior` record gives, for each request, whether URL
resolution succeeds, whether stream selection raises, whether the
download call raises, and the provider-chosen file name; the filesystem
is a multiset of paths (`List String`).  `os.path.join` and
`os.path.splitext` are translated from the CPython `posixpath` sources.
-/

namespace YTDL

/-! ### Module constants (verbatim from the Python module) -/

def FILE_TYPES : List String := ["mp3", "mp4"]

def GUI_ERROR_URL_TITLE : String := "URL Error"

def GUI_ERROR_URL_TEXT_EMPTY : String := "The URL is empty."

def GUI_ERROR_URL_TEXT_INVALID : String := "The URL is invalid."

def GUI_ERROR_AGE_TITLE : String := "Age Restriction Error"

def GUI_ERROR_AGE_TEXT : String := "The video is age restricted."

def GUI_INFO_SUCCESS_TITLE : String := "Download Successful"

def GUI_INFO_SUCCESS_TEXT : String := "The content was successfully downloaded."

/-! ### `os.path` helpers (translated from CPython `posixpath.py`) -/

/-- Model of `os.path.join(a, b)` for two components (POSIX flavour):
if `b` is absolute it wins; otherwise the parts are separated by `'/'`
unless `a` is empty or already ends in `'/'`. -/
def joinPath (a b : String) : String :=
  if b.startsWith "/" then b
  else if a = "" ∨ a.endsWith "/" then a ++ b
  else a ++ "/" ++ b

/-- Index of the last occurrence of `c` in `l` (`str.rfind` restricted to a
single character, with `Option` instead of `-1`). -/
def rfindIdx (c : Char) : List Char → Option Nat
  | [] => Option.none
  | x :: xs =>
    match rfindIdx c xs with
    | Option.some j => Option.some (j + 1)
    | Option.none => if x = c then Option.some 0 else Option.none

/-- The scan of CPython `genericpath._splitext`: the extension starts at the
last dot `d` only if some character of the basename strictly before `d` is
not a dot (protecting names such as `.bashrc`). -/
def hasNonDot (l : List Char) (start d : Nat) : Bool :=
  (List.range d).any (fun k => decide (start ≤ k) && (l.getD k ' ' != '.'))

/-- Model of `os.path.splitext` on a list of characters: split at the last `'.'`
that lies after the last `'/'` and is preceded (within the basename) by a
non-dot character; otherwise the extension is empty. -/
def splitextList (l : List Char) : List Char × List Char :=
  match rfindIdx '.' l with
  | Option.none => (l, [])
  | Option.some d =>
    let start : Nat :=
      match rfindIdx '/' l with
      | Option.none => 0
      | Option.some s => s + 1
    if start ≤ d ∧ hasNonDot l start d then (l.take d, l.drop d) else (l, [])

/-- Model of `os.path.splitext` on strings. -/
def splitext (p : String) : String × String :=
  ((splitextList p.toList).1.asString, (splitextList p.toList).2.asString)

/-- The rename target of the audio branch:
`base, ext = os.path.splitext(outFile); newFile = base + ".mp3"`. -/
def audioTarget (outFile : String) : String :=
  (splitext outFile).1 ++ ".mp3"

/-- Model of `os.path.basename` on a list of characters (`posixpath.basename`):
everything after the last `'/'`. -/
def basenameList (l : List Char) : List Char :=
  match rfindIdx '/' l with
  | Option.none => l
  | Option.some s => l.drop (s + 1)

/-- Model of `os.path.basename`. -/
def basename (p : String) : String :=
  (basenameList p.toList).asString

/-- Model of `str.rstrip` restricted to `'/'` (as used by `posixpath.dirname`). -/
def stripTrailingSlashes (l : List Char) : List Char :=
  (l.reverse.dropWhile (fun c => c = '/')).reverse

/-- Model of `os.path.dirname` on a list of characters (`posixpath.dirname`): the
prefix up to and including the last `'/'`, with trailing slashes stripped
unless the prefix is nothing but slashes. -/
def dirnameList (l : List Char) : List Char :=
  match rfindIdx '/' l with
  | Option.none => []
  | Option.some s =>
    let head := l.take (s + 1)
    if head.all (fun c => c = '/') then head else stripTrailingSlashes head

/-- Model of `os.path.dirname`. -/
def dirname (p : String) : String :=
  (dirnameList p.toList).asString

/-! ### Filesystem model: a multiset of file paths -/

/-- Model of `os.path.isfile` over the modelled filesystem. -/
def isfile (fs : List String) (p : String) : Bool :=
  fs.contains p

/-- Model of `os.remove` over the modelled filesystem. -/
def removeFile (fs : List String) (p : String) : List String :=
  fs.filter (fun q => q != p)

/-- Model of `os.rename src dst` over the modelled filesystem: `src` disappears and
`dst` denotes its content (clobbering any previous `dst`). -/
def renameFile (fs : List String) (src dst : String) : List String :=
  dst :: removeFile (removeFile fs src) dst

/-! ### The external provider (pytube) as an opaque collaborator -/

/-- Interaction of one request with the external provider.  `resolve` is
`YouTube(url, use_oauth=True)` (`Option.none` models the constructor
raising), `getAudioOnly` / `getHighestResolution` are the two stream
selectors (`Option.none` models the selector raising, e.g. an age gate),
`downloadRaises` tells whether `stream.download(...)` raises, and
`chooseFileName` is the provider-chosen file name placed inside the
requested output directory.  `home` is `Path.home()`. -/
structure Behavior (V S : Type) where
  resolve : String → Option V
  getAudioOnly : V → Option S
  getHighestResolution : V → Option S
  downloadRaises : S → Bool
  chooseFileName : S → String
  home : String

/-- Stream selection exactly as in the driver:
`if fileType == "mp3": yt.streams.get_audio_only() else: yt.streams.get_highest_resolution()`. -/
def selectStream {V S : Type} (B : Behavior V S) (fileType : String) (yt : V) : Option S :=
  if fileType = "mp3" then B.getAudioOnly yt else B.getHighestResolution yt

/-- The path returned by `stream.download(output_path = os.path.join(Path.home(), "Downloads"))`:
the provider places its chosen file name inside the requested output
directory. -/
def outPath {V S : Type} (B : Behavior V S) (stream : S) : String :=
  joinPath (joinPath B.home "Downloads") (B.chooseFileName stream)

/-! ### Observable outcome of one call -/

/-- The Python return value: `None` on the two error paths, the `ret`
holder object (not the literal `True`) on the success path. -/
inductive PyReturn where
  | pyNone
  | pyRetObj
deriving DecidableEq, Repr

/-- Everything observable about a normally-returning call: the final
filesystem, the modal dialog shown, the sequence of values written into
the shared `ret` variable, the Python return value, the path the stream
was downloaded to (the `outFile` variable) and the final file path. -/
structure RunOutput where
  fs : List String
  dialogTitle : String
  dialogMsg : String
  retAssignments : List Bool
  returned : PyReturn
  downloadedPath : Option String
  outFilePath : Option String
deriving DecidableEq, Repr

/-- A call either returns normally or lets an exception propagate to its
caller (recording the filesystem at that moment and the `ret` writes made
before the exception). -/
inductive Outcome where
  | normal (o : RunOutput)
  | raised (fs : List String) (retAssignments : List Bool)
deriving DecidableEq, Repr

/-! ### The driver function -/

/-- Function `downloadYouTubeVideo(url, fileType, ret)` from
`source/YouTubeVideoDownloaderDriver.py`, translated statement by
statement over the modelled provider and filesystem. -/
def downloadYouTubeVideo {V S : Type} (B : Behavior V S)
    (url : String) (fileType : String) (fs : List String) : Outcome :=
  match B.resolve url with
  | Option.none =>
    Outcome.normal {
      fs := fs
      dialogTitle := GUI_ERROR_URL_TITLE
      dialogMsg := if url = "" then GUI_ERROR_URL_TEXT_EMPTY else GUI_ERROR_URL_TEXT_INVALID
      retAssignments := [false]
      returned := PyReturn.pyNone
      downloadedPath := Option.none
      outFilePath := Option.none }
  | Option.some yt =>
    match selectStream B fileType yt with
    | Option.none =>
      Outcome.normal {
        fs := fs
        dialogTitle := GUI_ERROR_AGE_TITLE
        dialogMsg := GUI_ERROR_AGE_TEXT
        retAssignments := [false]
        returned := PyReturn.pyNone
        downloadedPath := Option.none
        outFilePath := Option.none }
    | Option.some stream =>
      if B.downloadRaises stream then
        Outcome.raised fs []
      else
        let outFile := outPath B stream
        let fs1 := outFile :: fs
        if fileType = "mp3" then
          let newFile := audioTarget outFile
          let fs2 := if isfile fs1 newFile then removeFile fs1 newFile else fs1
          let fs3 := renameFile fs2 outFile newFile
          Outcome.normal {
            fs := fs3
            dialogTitle := GUI_INFO_SUCCESS_TITLE
            dialogMsg := GUI_INFO_SUCCESS_TEXT
            retAssignments := [true]
            returned := PyReturn.pyRetObj
            downloadedPath := Option.some outFile
            outFilePath := Option.some newFile }
        else
          Outcome.normal {
            fs := fs1
            dialogTitle := GUI_INFO_SUCCESS_TITLE
            dialogMsg := GUI_INFO_SUCCESS_TEXT
            retAssignments := [true]
            returned := PyReturn.pyRetObj
            downloadedPath := Option.some outFile
            outFilePath := Option.some outFile }

/-! ### Spec-level view (`DownloadResult` of §3 of the design) -/

inductive ErrorKind where
  | URL_EMPTY
  | URL_INVALID
  | ACCESS_RESTRICTED
deriving DecidableEq, Repr

/-- The request kind from the data model of the spec. -/
inductive Kind where
  | AUDIO
  | VIDEO
deriving DecidableEq, Repr

/-- The `fileType` string each GUI button passes to the driver:
the mp3 button passes `FILE_TYPES[0]`, the mp4 button `FILE_TYPES[1]`. -/
def fileTypeFor : Kind → String
  | Kind.AUDIO => FILE_TYPES.getD 0 ""
  | Kind.VIDEO => FILE_TYPES.getD 1 ""

/-- The error kind signalled by the dialog of a normal return, read off
the title and message of the dialog. -/
def errorKindOf (o : RunOutput) : Option ErrorKind :=
  if o.dialogTitle = GUI_ERROR_URL_TITLE then
    Option.some (if o.dialogMsg = GUI_ERROR_URL_TEXT_EMPTY then ErrorKind.URL_EMPTY
                 else ErrorKind.URL_INVALID)
  else if o.dialogTitle = GUI_ERROR_AGE_TITLE then
    Option.some ErrorKind.ACCESS_RESTRICTED
  else
    Option.none

/-- Structure `DownloadResult` from §3 of the design document. -/
structure DownloadResult where
  success : Bool
  filePath : Option String
  errorKind : Option ErrorKind
deriving DecidableEq, Repr

/-- The `DownloadResult` a normal return denotes. -/
def toResult (o : RunOutput) : DownloadResult :=
  { success := o.dialogTitle = GUI_INFO_SUCCESS_TITLE
    filePath := o.outFilePath
    errorKind := errorKindOf o }

/-! ### The four normal-return outputs, one per code path -/

/-- Output of the URL-error path (`yt is None` in the `finally` block). -/
def urlErrorOutput (url : String) (fs : List String) : RunOutput :=
  { fs := fs
    dialogTitle := GUI_ERROR_URL_TITLE
    dialogMsg := if url = "" then GUI_ERROR_URL_TEXT_EMPTY else GUI_ERROR_URL_TEXT_INVALID
    retAssignments := [false]
    returned := PyReturn.pyNone
    downloadedPath := Option.none
    outFilePath := Option.none }

/-- Output of the age-restriction path (the stream-selection `except`). -/
def ageErrorOutput (fs : List String) : RunOutput :=
  { fs := fs
    dialogTitle := GUI_ERROR_AGE_TITLE
    dialogMsg := GUI_ERROR_AGE_TEXT
    retAssignments := [false]
    returned := PyReturn.pyNone
    downloadedPath := Option.none
    outFilePath := Option.none }

/-- Output of the successful audio path (download, then the `.mp3`
overwrite-and-rename block). -/
def audioSuccessOutput {V S : Type} (B : Behavior V S) (stream : S) (fs : List String) : RunOutput :=
  { fs := renameFile
      (if isfile (outPath B stream :: fs) (audioTarget (outPath B stream))
       then removeFile (outPath B stream :: fs) (audioTarget (outPath B stream))
       else outPath B stream :: fs)
      (outPath B stream) (audioTarget (outPath B stream))
    dialogTitle := GUI_INFO_SUCCESS_TITLE
    dialogMsg := GUI_INFO_SUCCESS_TEXT
    retAssignments := [true]
    returned := PyReturn.pyRetObj
    downloadedPath := Option.some (outPath B stream)
    outFilePath := Option.some (audioTarget (outPath B stream)) }

/-- Output of the successful video path (download only, no rename). -/
def videoSuccessOutput {V S : Type} (B : Behavior V S) (stream : S) (fs : List String) : RunOutput :=
  { fs := outPath B stream :: fs
    dialogTitle := GUI_INFO_SUCCESS_TITLE
    dialogMsg := GUI_INFO_SUCCESS_TEXT
    retAssignments := [true]
    returned := PyReturn.pyRetObj
    downloadedPath := Option.some (outPath B stream)
    outFilePath := Option.some (outPath B stream) }

/-! ### Equation lemmas: one per code path of `downloadYouTubeVideo` -/

theorem run_resolve_fail {V S : Type} (B : Behavior V S) (url ft : String) (fs : List String)
    (h : B.resolve url = Option.none) :
    downloadYouTubeVideo B url ft fs = Outcome.normal (urlErrorOutput url fs) := by
  simp [downloadYouTubeVideo, h, urlErrorOutput]

theorem run_select_fail {V S : Type} (B : Behavior V S) (url ft : String) (fs : List String)
    (yt : V) (h1 : B.resolve url = Option.some yt)
    (h2 : selectStream B ft yt = Option.none) :
    downloadYouTubeVideo B url ft fs = Outcome.normal (ageErrorOutput fs) := by
  simp [downloadYouTubeVideo, h1, h2, ageErrorOutput]

theorem run_download_raise {V S : Type} (B : Behavior V S) (url ft : String) (fs : List String)
    (yt : V) (s : S) (h1 : B.resolve url = Option.some yt)
    (h2 : selectStream B ft yt = Option.some s)
    (h3 : B.downloadRaises s = true) :
    downloadYouTubeVideo B url ft fs = Outcome.raised fs [] := by
  simp [downloadYouTubeVideo, h1, h2, h3]

theorem run_audio_success {V S : Type} (B : Behavior V S) (url : String) (fs : List String)
    (yt : V) (s : S) (h1 : B.resolve url = Option.some yt)
    (h2 : B.getAudioOnly yt = Option.some s)
    (h3 : B.downloadRaises s = false) :
    downloadYouTubeVideo B url "mp3" fs = Outcome.normal (audioSuccessOutput B s fs) := by
  simp [downloadYouTubeVideo, selectStream, h1, h2, h3, audioSuccessOutput]

theorem run_video_success {V S : Type} (B : Behavior V S) (url ft : String) (fs : List String)
    (yt : V) (s : S) (hft : ft ≠ "mp3") (h1 : B.resolve url = Option.some yt)
    (h2 : B.getHighestResolution yt = Option.some s)
    (h3 : B.downloadRaises s = false) :
    downloadYouTubeVideo B url ft fs = Outcome.normal (videoSuccessOutput B s fs) := by
  simp [downloadYouTubeVideo, selectStream, h1, h2, h3, hft, videoSuccessOutput]

/-- Exhaustive case analysis of one call: it lands on exactly one of the
five code paths. -/
theorem run_cases {V S : Type} (B : Behavior V S) (url ft : String) (fs : List String) :
    downloadYouTubeVideo B url ft fs = Outcome.normal (urlErrorOutput url fs) ∨
    downloadYouTubeVideo B url ft fs = Outcome.normal (ageErrorOutput fs) ∨
    (∃ s, downloadYouTubeVideo B url ft fs = Outcome.normal (audioSuccessOutput B s fs) ∧
       ft = "mp3") ∨
    (∃ s, downloadYouTubeVideo B url ft fs = Outcome.normal (videoSuccessOutput B s fs) ∧
       ft ≠ "mp3") ∨
    (∃ yt s, B.resolve url = Option.some yt ∧ selectStream B ft yt = Option.some s ∧
       B.downloadRaises s = true ∧ downloadYouTubeVideo B url ft fs = Outcome.raised fs []) := by
  cases h1 : B.resolve url with
  | none => exact Or.inl (run_resolve_fail B url ft fs h1)
  | some yt =>
    cases h2 : selectStream B ft yt with
    | none => exact Or.inr (Or.inl (run_select_fail B url ft fs yt h1 h2))
    | some s =>
      cases h3 : B.downloadRaises s with
      | true =>
        exact Or.inr (Or.inr (Or.inr (Or.inr
          ⟨yt, s, rfl, h2, h3, run_download_raise B url ft fs yt s h1 h2 h3⟩)))
      | false =>
        by_cases hft : ft = "mp3"
        · subst hft
          have h2a : B.getAudioOnly yt = Option.some s := by
            simpa [selectStream] using h2
          exact Or.inr (Or.inr (Or.inl
            ⟨s, run_audio_success B url fs yt s h1 h2a h3, rfl⟩))
        · have h2v : B.getHighestResolution yt = Option.some s := by
            simpa [selectStream, hft] using h2
          exact Or.inr (Or.inr (Or.inr (Or.inl
            ⟨s, run_video_success B url ft fs yt s hft h1 h2v h3, hft⟩)))

/-! ### Lemmas about `rfindIdx` -/

theorem rfindIdx_none_iff (c : Char) (l : List Char) :
    rfindIdx c l = Option.none ↔ c ∉ l := by
  induction l with
  | nil => simp [rfindIdx]
  | cons x xs ih =>
    cases h : rfindIdx c xs with
    | some j =>
      have hmem : c ∈ xs := by
        by_contra hc
        rw [ih.mpr hc] at h
        exact Option.noConfusion h
      simp [rfindIdx, h, hmem]
    | none =>
      have hnm : c ∉ xs := ih.mp h
      by_cases hxc : x = c
      · subst hxc
        simp [rfindIdx, h]
      · simp [rfindIdx, h, hxc, hnm, Ne.symm hxc]

theorem rfindIdx_lt_length {c : Char} {l : List Char} {s : Nat}
    (h : rfindIdx c l = Option.some s) : s < l.length := by
  induction l generalizing s with
  | nil => exact Option.noConfusion h
  | cons x xs ih =>
    cases hx : rfindIdx c xs with
    | some j =>
      rw [rfindIdx, hx] at h
      cases h
      exact Nat.succ_lt_succ (ih hx)
    | none =>
      rw [rfindIdx, hx] at h
      by_cases hxc : x = c
      · rw [if_pos hxc] at h
        cases h
        exact Nat.succ_pos _
      · rw [if_neg hxc] at h
        exact Option.noConfusion h

theorem rfindIdx_gt {c : Char} {l : List Char} {s : Nat}
    (h : rfindIdx c l = Option.some s) :
    ∀ k, s < k → l.get? k ≠ Option.some c := by
  induction l generalizing s with
  | nil => exact Option.noConfusion h
  | cons x xs ih =>
    intro k hk habs
    cases hx : rfindIdx c xs with
    | some j =>
      rw [rfindIdx, hx] at h
      cases h
      cases k with
      | zero => exact Nat.not_lt_zero _ hk
      | succ m =>
        exact ih hx m (Nat.lt_of_succ_lt_succ hk) (by simpa using habs)
    | none =>
      have hnm : c ∉ xs := (rfindIdx_none_iff c xs).mp hx
      rw [rfindIdx, hx] at h
      by_cases hxc : x = c
      · rw [if_pos hxc] at h
        cases h
        cases k with
        | zero => exact Nat.not_lt_zero _ hk
        | succ m =>
          have : c ∈ xs := List.get?_mem (by simpa using habs)
          exact hnm this
      · rw [if_neg hxc] at h
        exact Option.noConfusion h

theorem rfindIdx_append_of_none {c : Char} {l2 : List Char}
    (h : rfindIdx c l2 = Option.none) (l1 : List Char) :
    rfindIdx c (l1 ++ l2) = rfindIdx c l1 := by
  induction l1 with
  | nil => simp [rfindIdx, h]
  | cons x xs ih => simp [rfindIdx, ih]

/-- A character that sits after the last occurrence of `c` cannot be `c`:
the drop beyond any bound past the last occurrence is `c`-free. -/
theorem not_mem_drop_of_rfindIdx {c : Char} {l : List Char} {s d : Nat}
    (h : rfindIdx c l = Option.some s) (hsd : s < d) : c ∉ l.drop d := by
  intro hmem
  obtain ⟨n, hn⟩ := List.mem_iff_get?.mp hmem
  rw [List.get?_drop] at hn
  exact rfindIdx_gt h (d + n) (Nat.lt_of_lt_of_le hsd (Nat.le_add_right d n)) hn

/-! ### Lemmas about `splitext` -/

/-- Function `splitextList` really is a decomposition: the two parts re-assemble
to the input, and the extension part contains no path separator. -/
theorem splitextList_decomp (l : List Char) :
    (splitextList l).1 ++ (splitextList l).2 = l ∧ '/' ∉ (splitextList l).2 := by
  unfold splitextList
  cases hd : rfindIdx '.' l with
  | none => simp
  | some d =>
    cases hs : rfindIdx '/' l with
    | none =>
      simp only
      split
      · exact ⟨List.take_append_drop d l,
          fun habs => (rfindIdx_none_iff '/' l).mp hs (List.drop_subset d l habs)⟩
      · simp
    | some s =>
      simp only
      split
      · next hcond =>
        exact ⟨List.take_append_drop d l,
          not_mem_drop_of_rfindIdx hs (Nat.lt_of_lt_of_le (Nat.lt_succ_self s) hcond.1)⟩
      · simp

theorem splitext_append_eq (p : String) :
    (splitext p).1 ++ (splitext p).2 = p := by
  have h := (splitextList_decomp p.toList).1
  calc (splitext p).1 ++ (splitext p).2
      = ((splitextList p.toList).1 ++ (splitextList p.toList).2).asString := rfl
    _ = p.toList.asString := by rw [h]
    _ = p := by
        cases p
        rfl

theorem splitext_snd_no_slash (p : String) : '/' ∉ (splitext p).2.toList := by
  have h := (splitextList_decomp p.toList).2
  simpa [splitext, List.asString] using h

/-! ### `dirname` and `basename` ignore a slash-free suffix swap -/

theorem dirnameList_append_no_slash {e : List Char} (he : '/' ∉ e) (b : List Char) :
    dirnameList (b ++ e) = dirnameList b := by
  have hn : rfindIdx '/' e = Option.none := (rfindIdx_none_iff '/' e).mpr he
  unfold dirnameList
  rw [rfindIdx_append_of_none hn b]
  cases hs : rfindIdx '/' b with
  | none => rfl
  | some s =>
    have hlt : s < b.length := rfindIdx_lt_length hs
    have htake : (b ++ e).take (s + 1) = b.take (s + 1) := by
      rw [List.take_append_eq_append_take, Nat.sub_eq_zero_of_le hlt]
      simp
    simp only [htake]

theorem basenameList_append_no_slash {e : List Char} (he : '/' ∉ e) (b : List Char) :
    basenameList (b ++ e) = basenameList b ++ e := by
  have hn : rfindIdx '/' e = Option.none := (rfindIdx_none_iff '/' e).mpr he
  unfold basenameList
  rw [rfindIdx_append_of_none hn b]
  cases hs : rfindIdx '/' b with
  | none => rfl
  | some s =>
    have hlt : s < b.length := rfindIdx_lt_length hs
    show (b ++ e).drop (s + 1) = b.drop (s + 1) ++ e
    rw [List.drop_append_eq_append_drop, Nat.sub_eq_zero_of_le hlt]
    rfl

/-! ### Filesystem counting lemmas -/

theorem count_removeFile_self (fs : List String) (q : String) :
    (removeFile fs q).count q = 0 := by
  rw [List.count_eq_zero]
  simp [removeFile]

theorem count_renameFile_dst (fs : List String) (src dst : String) :
    (renameFile fs src dst).count dst = 1 := by
  unfold renameFile
  rw [List.count_cons_self, count_removeFile_self]

theorem isfile_renameFile_dst (fs : List String) (src dst : String) :
    isfile (renameFile fs src dst) dst = true := by
  simp [isfile, renameFile]

/-! ### String plumbing lemmas -/

theorem toList_asString (p : String) : p.toList.asString = p := rfl

theorem asString_append_eq (a b : List Char) :
    a.asString ++ b.asString = (a ++ b).asString := rfl

/-! ### Concrete provider interactions (for evaluating the theorems) -/

/-- A provider interaction in which every external call succeeds. -/
def okBehavior : Behavior Unit Unit :=
  { resolve := fun _ => Option.some ()
    getAudioOnly := fun _ => Option.some ()
    getHighestResolution := fun _ => Option.some ()
    downloadRaises := fun _ => false
    chooseFileName := fun _ => "My Song.webm"
    home := "/home/user" }

/-- URL resolution raises (malformed URL, network error, provider reject). -/
def badUrlBehavior : Behavior Unit Unit :=
  { okBehavior with resolve := fun _ => Option.none }

/-- Stream selection raises (e.g. an age gate). -/
def ageGateBehavior : Behavior Unit Unit :=
  { okBehavior with
    getAudioOnly := fun _ => Option.none
    getHighestResolution := fun _ => Option.none }

/-- The unguarded download call raises (e.g. an I/O failure mid-download). -/
def raisingDownloadBehavior : Behavior Unit Unit :=
  { okBehavior with downloadRaises := fun _ => true }

/-! ### The claims -/

/-- C1: if resolving the URL via the external provider fails,
`downloadYouTubeVideo` returns a failure result whose error kind is
`URL_EMPTY` when the submitted url string equals `""` and `URL_INVALID`
for every other url string. -/
theorem C1_resolution_failure_error_kind {V S : Type} (B : Behavior V S)
    (url fileType : String) (fs : List String)
    (h : B.resolve url = Option.none) :
    ∃ o, downloadYouTubeVideo B url fileType fs = Outcome.normal o ∧
      toResult o =
        { success := false, filePath := Option.none,
          errorKind := Option.some
            (if url = "" then ErrorKind.URL_EMPTY else ErrorKind.URL_INVALID) } := by
  refine ⟨urlErrorOutput url fs, run_resolve_fail B url fileType fs h, ?_⟩
  by_cases hu : url = ""
  · simp [toResult, errorKindOf, urlErrorOutput, hu,
      GUI_ERROR_URL_TITLE, GUI_INFO_SUCCESS_TITLE,
      GUI_ERROR_URL_TEXT_EMPTY, GUI_ERROR_URL_TEXT_INVALID,
      GUI_ERROR_AGE_TITLE]
  · simp [toResult, errorKindOf, urlErrorOutput, hu,
      GUI_ERROR_URL_TITLE, GUI_INFO_SUCCESS_TITLE,
      GUI_ERROR_URL_TEXT_EMPTY, GUI_ERROR_URL_TEXT_INVALID,
      GUI_ERROR_AGE_TITLE]

/-- Witness for C1 at the empty url: `fetch("", AUDIO)` against a provider
that rejects the input yields error kind `URL_EMPTY`. -/
theorem C1_witness :
    badUrlBehavior.resolve "" = Option.none ∧
    (∃ o, downloadYouTubeVideo badUrlBehavior "" "mp3" [] = Outcome.normal o ∧
      toResult o =
        { success := false, filePath := Option.none,
          errorKind := Option.some
            (if "" = "" then ErrorKind.URL_EMPTY else ErrorKind.URL_INVALID) }) :=
  ⟨rfl, C1_resolution_failure_error_kind badUrlBehavior "" "mp3" [] rfl⟩

/-- C2: for every resolvable URL with kind `AUDIO`, the final file path
ends in `.mp3` regardless of the native container: the downloaded file is
renamed to `<name>.mp3` before the success result is produced. -/
theorem C2_audio_final_path_mp3 {V S : Type} (B : Behavior V S)
    (url : String) (fs : List String) (yt : V) (s : S)
    (h1 : B.resolve url = Option.some yt)
    (h2 : B.getAudioOnly yt = Option.some s)
    (h3 : B.downloadRaises s = false) :
    ∃ o outFile, downloadYouTubeVideo B url (fileTypeFor Kind.AUDIO) fs = Outcome.normal o ∧
      o.downloadedPath = Option.some outFile ∧
      o.outFilePath = Option.some ((splitext outFile).1 ++ ".mp3") ∧
      (toResult o).success = true ∧
      isfile o.fs ((splitext outFile).1 ++ ".mp3") = true := by
  refine ⟨audioSuccessOutput B s fs, outPath B s, ?_, rfl, rfl, rfl, ?_⟩
  · exact run_audio_success B url fs yt s h1 h2 h3
  · exact isfile_renameFile_dst _ _ _

/-- Witness for C2: a successful audio request for a `.webm` source. -/
theorem C2_witness :
    okBehavior.resolve "https://youtu.be/x" = Option.some () ∧
    okBehavior.getAudioOnly () = Option.some () ∧
    okBehavior.downloadRaises () = false ∧
    (∃ o outFile,
      downloadYouTubeVideo okBehavior "https://youtu.be/x" (fileTypeFor Kind.AUDIO) []
        = Outcome.normal o ∧
      o.downloadedPath = Option.some outFile ∧
      o.outFilePath = Option.some ((splitext outFile).1 ++ ".mp3") ∧
      (toResult o).success = true ∧
      isfile o.fs ((splitext outFile).1 ++ ".mp3") = true) :=
  ⟨rfl, rfl, rfl, C2_audio_final_path_mp3 okBehavior "https://youtu.be/x" [] () () rfl rfl rfl⟩

/-- C3: if stream selection raises (e.g. an age gate), the request returns
a failure with error kind `ACCESS_RESTRICTED` and no file is written. -/
theorem C3_selection_failure_access_restricted {V S : Type} (B : Behavior V S)
    (url ft : String) (fs : List String) (yt : V)
    (h1 : B.resolve url = Option.some yt)
    (h2 : selectStream B ft yt = Option.none) :
    ∃ o, downloadYouTubeVideo B url ft fs = Outcome.normal o ∧
      toResult o =
        { success := false, filePath := Option.none,
          errorKind := Option.some ErrorKind.ACCESS_RESTRICTED } ∧
      o.fs = fs := by
  refine ⟨ageErrorOutput fs, run_select_fail B url ft fs yt h1 h2, ?_, rfl⟩
  rfl

/-- Witness for C3: an age-gated video. -/
theorem C3_witness :
    ageGateBehavior.resolve "https://youtu.be/x" = Option.some () ∧
    selectStream ageGateBehavior "mp3" () = Option.none ∧
    (∃ o, downloadYouTubeVideo ageGateBehavior "https://youtu.be/x" "mp3" ["p"]
        = Outcome.normal o ∧
      toResult o =
        { success := false, filePath := Option.none,
          errorKind := Option.some ErrorKind.ACCESS_RESTRICTED } ∧
      o.fs = ["p"]) :=
  ⟨rfl, rfl, C3_selection_failure_access_restricted ageGateBehavior
    "https://youtu.be/x" "mp3" ["p"] () rfl rfl⟩

/-- C6: for every resolvable URL with kind `VIDEO`, the rename step is
skipped: the final file is exactly the downloaded file, at the
provider-chosen name (hence with its native container extension). -/
theorem C6_video_keeps_native_extension {V S : Type} (B : Behavior V S)
    (url : String) (fs : List String) (yt : V) (s : S)
    (h1 : B.resolve url = Option.some yt)
    (h2 : B.getHighestResolution yt = Option.some s)
    (h3 : B.downloadRaises s = false) :
    ∃ o, downloadYouTubeVideo B url (fileTypeFor Kind.VIDEO) fs = Outcome.normal o ∧
      o.downloadedPath = Option.some (joinPath (joinPath B.home "Downloads") (B.chooseFileName s)) ∧
      o.outFilePath = o.downloadedPath ∧
      o.fs = joinPath (joinPath B.home "Downloads") (B.chooseFileName s) :: fs ∧
      (toResult o).success = true := by
  refine ⟨videoSuccessOutput B s fs, ?_, rfl, rfl, rfl, rfl⟩
  exact run_video_success B url "mp4" fs yt s (by decide) h1 h2 h3

/-- Witness for C6: a successful video request keeps the `.webm` name. -/
theorem C6_witness :
    okBehavior.resolve "https://youtu.be/x" = Option.some () ∧
    okBehavior.getHighestResolution () = Option.some () ∧
    okBehavior.downloadRaises () = false ∧
    (∃ o, downloadYouTubeVideo okBehavior "https://youtu.be/x" (fileTypeFor Kind.VIDEO) []
        = Outcome.normal o ∧
      o.downloadedPath = Option.some (joinPath (joinPath okBehavior.home "Downloads")
        (okBehavior.chooseFileName ())) ∧
      o.outFilePath = o.downloadedPath ∧
      o.fs = joinPath (joinPath okBehavior.home "Downloads") (okBehavior.chooseFileName ()) :: [] ∧
      (toResult o).success = true) :=
  ⟨rfl, rfl, rfl, C6_video_keeps_native_extension okBehavior "https://youtu.be/x" [] () ()
    rfl rfl rfl⟩

/-- C8: every `fileType` other than the exact string `"mp3"` takes the
video branch: the call behaves exactly like an `"mp4"` call, and the
selection used is `get_highest_resolution`. -/
theorem C8_only_mp3_triggers_audio {V S : Type} (B : Behavior V S)
    (url ft : String) (fs : List String) (h : ft ≠ "mp3") :
    downloadYouTubeVideo B url ft fs = downloadYouTubeVideo B url "mp4" fs ∧
    ∀ yt, selectStream B ft yt = B.getHighestResolution yt := by
  constructor
  · have h4 : ("mp4" : String) ≠ "mp3" := by decide
    simp [downloadYouTubeVideo, selectStream, h, h4]
  · intro yt
    simp [selectStream, h]

/-- Witness for C8 at the unexpected `fileType` value `"flac"`. -/
theorem C8_witness :
    ("flac" : String) ≠ "mp3" ∧
    (downloadYouTubeVideo okBehavior "https://youtu.be/x" "flac" []
        = downloadYouTubeVideo okBehavior "https://youtu.be/x" "mp4" [] ∧
     ∀ yt, selectStream okBehavior "flac" yt = okBehavior.getHighestResolution yt) :=
  ⟨by decide, C8_only_mp3_triggers_audio okBehavior "https://youtu.be/x" "flac" [] (by decide)⟩

/-- C5: running the same AUDIO request twice is idempotent on the
filesystem: the second run finds the `<name>.mp3` of the first run, removes
it, renames its own download to the same path, and exactly one file with
that path exists after each run. -/
theorem C5_audio_request_idempotent {V S : Type} (B : Behavior V S)
    (url : String) (fs0 : List String) (yt : V) (s : S)
    (h1 : B.resolve url = Option.some yt)
    (h2 : B.getAudioOnly yt = Option.some s)
    (h3 : B.downloadRaises s = false) :
    ∃ o1 o2 p,
      downloadYouTubeVideo B url (fileTypeFor Kind.AUDIO) fs0 = Outcome.normal o1 ∧
      downloadYouTubeVideo B url (fileTypeFor Kind.AUDIO) o1.fs = Outcome.normal o2 ∧
      o1.outFilePath = Option.some p ∧
      o2.outFilePath = Option.some p ∧
      (toResult o2).success = true ∧
      isfile o1.fs p = true ∧
      o1.fs.count p = 1 ∧
      o2.fs.count p = 1 := by
  refine ⟨audioSuccessOutput B s fs0, audioSuccessOutput B s (audioSuccessOutput B s fs0).fs,
    audioTarget (outPath B s),
    run_audio_success B url fs0 yt s h1 h2 h3,
    run_audio_success B url (audioSuccessOutput B s fs0).fs yt s h1 h2 h3,
    rfl, rfl, rfl, ?_, ?_, ?_⟩
  · exact isfile_renameFile_dst _ _ _
  · exact count_renameFile_dst _ _ _
  · exact count_renameFile_dst _ _ _

/-- Witness for C5: two consecutive audio runs on an empty filesystem. -/
theorem C5_witness :
    okBehavior.resolve "https://youtu.be/x" = Option.some () ∧
    okBehavior.getAudioOnly () = Option.some () ∧
    okBehavior.downloadRaises () = false ∧
    (∃ o1 o2 p,
      downloadYouTubeVideo okBehavior "https://youtu.be/x" (fileTypeFor Kind.AUDIO) []
        = Outcome.normal o1 ∧
      downloadYouTubeVideo okBehavior "https://youtu.be/x" (fileTypeFor Kind.AUDIO) o1.fs
        = Outcome.normal o2 ∧
      o1.outFilePath = Option.some p ∧
      o2.outFilePath = Option.some p ∧
      (toResult o2).success = true ∧
      isfile o1.fs p = true ∧
      o1.fs.count p = 1 ∧
      o2.fs.count p = 1) :=
  ⟨rfl, rfl, rfl,
    C5_audio_request_idempotent okBehavior "https://youtu.be/x" [] () () rfl rfl rfl⟩

/-- The success flags of the four normal outputs, by computation. -/
theorem toResult_urlErrorOutput_success (url : String) (fs : List String) :
    (toResult (urlErrorOutput url fs)).success = false := rfl

theorem toResult_ageErrorOutput_success (fs : List String) :
    (toResult (ageErrorOutput fs)).success = false := rfl

theorem toResult_audioSuccessOutput_success {V S : Type} (B : Behavior V S)
    (s : S) (fs : List String) :
    (toResult (audioSuccessOutput B s fs)).success = true := rfl

theorem toResult_videoSuccessOutput_success {V S : Type} (B : Behavior V S)
    (s : S) (fs : List String) :
    (toResult (videoSuccessOutput B s fs)).success = true := rfl

/-- C7: every successful request downloads the stream to the fixed
destination directory `Path.home()/Downloads`, at a provider-chosen file
name. -/
theorem C7_download_destination {V S : Type} (B : Behavior V S)
    (url ft : String) (fs : List String) (o : RunOutput)
    (h : downloadYouTubeVideo B url ft fs = Outcome.normal o)
    (hs : (toResult o).success = true) :
    ∃ s, o.downloadedPath =
      Option.some (joinPath (joinPath B.home "Downloads") (B.chooseFileName s)) := by
  rcases run_cases B url ft fs with hc | hc | ⟨s, hc, hft⟩ | ⟨s, hc, hft⟩ | ⟨yt, s, hh1, hh2, hh3, hc⟩
  · rw [h] at hc
    injection hc with ho
    subst ho
    rw [toResult_urlErrorOutput_success] at hs
    exact Bool.noConfusion hs
  · rw [h] at hc
    injection hc with ho
    subst ho
    rw [toResult_ageErrorOutput_success] at hs
    exact Bool.noConfusion hs
  · rw [h] at hc
    injection hc with ho
    subst ho
    exact ⟨s, rfl⟩
  · rw [h] at hc
    injection hc with ho
    subst ho
    exact ⟨s, rfl⟩
  · rw [h] at hc
    exact Outcome.noConfusion hc

/-- Witness for C7: a successful video request on the concrete provider. -/
theorem C7_witness :
    (downloadYouTubeVideo okBehavior "https://youtu.be/x" "mp4" []
      = Outcome.normal (videoSuccessOutput okBehavior () [])) ∧
    (toResult (videoSuccessOutput okBehavior () [])).success = true ∧
    (∃ s, (videoSuccessOutput okBehavior () []).downloadedPath =
      Option.some (joinPath (joinPath okBehavior.home "Downloads")
        (okBehavior.chooseFileName s))) :=
  ⟨rfl, rfl, C7_download_destination okBehavior "https://youtu.be/x" "mp4" []
    (videoSuccessOutput okBehavior () []) rfl rfl⟩

/-- C9: on every normal return the shared `ret` variable has been assigned
exactly once: `False` on each error path (which returns `None`), `True` on
the success path (which returns the `ret` holder object). -/
theorem C9_ret_assigned_once {V S : Type} (B : Behavior V S)
    (url ft : String) (fs : List String) (o : RunOutput)
    (h : downloadYouTubeVideo B url ft fs = Outcome.normal o) :
    (o.retAssignments = [false] ∧ o.returned = PyReturn.pyNone ∧
      (toResult o).success = false) ∨
    (o.retAssignments = [true] ∧ o.returned = PyReturn.pyRetObj ∧
      (toResult o).success = true) := by
  rcases run_cases B url ft fs with hc | hc | ⟨s, hc, hft⟩ | ⟨s, hc, hft⟩ | ⟨yt, s, hh1, hh2, hh3, hc⟩
  · rw [h] at hc
    injection hc with ho
    subst ho
    exact Or.inl ⟨rfl, rfl, rfl⟩
  · rw [h] at hc
    injection hc with ho
    subst ho
    exact Or.inl ⟨rfl, rfl, rfl⟩
  · rw [h] at hc
    injection hc with ho
    subst ho
    exact Or.inr ⟨rfl, rfl, rfl⟩
  · rw [h] at hc
    injection hc with ho
    subst ho
    exact Or.inr ⟨rfl, rfl, rfl⟩
  · rw [h] at hc
    exact Outcome.noConfusion hc

/-- Witness for C9: the success path of a concrete video request. -/
theorem C9_witness :
    (downloadYouTubeVideo okBehavior "https://youtu.be/x" "mp4" []
      = Outcome.normal (videoSuccessOutput okBehavior () [])) ∧
    (((videoSuccessOutput okBehavior () []).retAssignments = [false] ∧
        (videoSuccessOutput okBehavior () []).returned = PyReturn.pyNone ∧
        (toResult (videoSuccessOutput okBehavior () [])).success = false) ∨
      ((videoSuccessOutput okBehavior () []).retAssignments = [true] ∧
        (videoSuccessOutput okBehavior () []).returned = PyReturn.pyRetObj ∧
        (toResult (videoSuccessOutput okBehavior () [])).success = true)) :=
  ⟨rfl, C9_ret_assigned_once okBehavior "https://youtu.be/x" "mp4" []
    (videoSuccessOutput okBehavior () []) rfl⟩

/-- C4 counterexample: when the unguarded download call raises, the
exception propagates out of `downloadYouTubeVideo` (no dialog is shown and
`ret` is never assigned), refuting the claim that every failure of every
phase is caught inside the handler. -/
theorem C4_counterexample :
    downloadYouTubeVideo raisingDownloadBehavior "https://youtu.be/dQw4w9WgXcQ" "mp4" []
      = Outcome.raised [] [] := rfl

/-- C4 amended: failures of URL resolution and stream selection are caught
and converted to dialogs, and an exception escapes the handler exactly
when the unguarded download phase raises. -/
theorem C4_amended_uncaught_only_download {V S : Type} (B : Behavior V S)
    (url ft : String) (fs : List String) :
    (∃ fsr ra, downloadYouTubeVideo B url ft fs = Outcome.raised fsr ra) ↔
    (∃ yt s, B.resolve url = Option.some yt ∧ selectStream B ft yt = Option.some s ∧
      B.downloadRaises s = true) := by
  constructor
  · rintro ⟨fsr, ra, hr⟩
    rcases run_cases B url ft fs with hc | hc | ⟨s, hc, hft⟩ | ⟨s, hc, hft⟩ |
      ⟨yt, s, hh1, hh2, hh3, hc⟩
    · rw [hr] at hc
      exact Outcome.noConfusion hc
    · rw [hr] at hc
      exact Outcome.noConfusion hc
    · rw [hr] at hc
      exact Outcome.noConfusion hc
    · rw [hr] at hc
      exact Outcome.noConfusion hc
    · exact ⟨yt, s, hh1, hh2, hh3⟩
  · rintro ⟨yt, s, hh1, hh2, hh3⟩
    exact ⟨fs, [], run_download_raise B url ft fs yt s hh1 hh2 hh3⟩

/-- C10: the audio rename changes only the extension: `splitext`
decomposes the downloaded path, the target appends `.mp3` to the same
base, and both the directory part and the base file name are preserved. -/
theorem C10_rename_changes_only_extension (outFile : String) :
    (splitext outFile).1 ++ (splitext outFile).2 = outFile ∧
    audioTarget outFile = (splitext outFile).1 ++ ".mp3" ∧
    dirname (audioTarget outFile) = dirname outFile ∧
    (∃ stem, basename outFile = stem ++ (splitext outFile).2 ∧
      basename (audioTarget outFile) = stem ++ ".mp3") := by
  obtain ⟨hdec, hnos⟩ := splitextList_decomp outFile.toList
  have hm : '/' ∉ (".mp3" : String).toList := by decide
  rcases hsp : splitextList outFile.toList with ⟨b, e⟩
  rw [hsp] at hdec hnos
  dsimp only at hdec hnos
  have hse : splitext outFile = (b.asString, e.asString) := by
    unfold splitext
    rw [hsp]
  have hlist : (audioTarget outFile).toList = b ++ (".mp3" : String).toList := by
    unfold audioTarget
    rw [hse]
    rfl
  refine ⟨splitext_append_eq outFile, rfl, ?_, ?_⟩
  · unfold dirname
    rw [hlist, dirnameList_append_no_slash hm]
    congr 1
    calc dirnameList b = dirnameList (b ++ e) := (dirnameList_append_no_slash hnos b).symm
      _ = dirnameList outFile.toList := by rw [hdec]
  · refine ⟨(basenameList b).asString, ?_, ?_⟩
    · rw [hse]
      unfold basename
      have hb : basenameList outFile.toList = basenameList b ++ e := by
        rw [← hdec]
        exact basenameList_append_no_slash hnos b
      rw [hb, ← asString_append_eq]
    · unfold basename
      rw [hlist, basenameList_append_no_slash hm, ← asString_append_eq,
        toList_asString]

end YTDL
